import Mathlib

/-!
# Verification of the desktop dashboard widget (`src/App.tsx`)

A shallow embedding of the pure logic of the dashboard application:
the weather-code mapping, the module/URL render branching, the lenient
JSON decoder, the state-controller operations with their persistence
effects, the weather fetch fallback chain, and the IP-geolocation loop.
Each definition is translated directly from the TypeScript source.
-/

namespace Dashboard

/-! ## Weather code mapping (`mapWmoToWeather`, App.tsx lines 109-122)

The source returns an object `{ text, icon }`; we embed it as a structure.
The input is a numeric WMO weather code (an integer in practice). -/

structure WeatherGlyph where
  text : String
  icon : String
deriving DecidableEq, Repr

def mapWmoToWeather (code : Int) : WeatherGlyph :=
  if code = 0 then ⟨"晴", "☀️"⟩
  else if code = 1 then ⟨"大部晴朗", "🌤️"⟩
  else if code = 2 then ⟨"多云", "⛅️"⟩
  else if code = 3 then ⟨"阴", "☁️"⟩
  else if code = 45 ∨ code = 48 then ⟨"雾", "🌫️"⟩
  else if 51 ≤ code ∧ code ≤ 57 then ⟨"毛毛雨", "🌦️"⟩
  else if 61 ≤ code ∧ code ≤ 67 then ⟨"雨", "🌧️"⟩
  else if 71 ≤ code ∧ code ≤ 77 then ⟨"雪", "🌨️"⟩
  else if 80 ≤ code ∧ code ≤ 82 then ⟨"阵雨", "🌦️"⟩
  else if 85 ≤ code ∧ code ≤ 86 then ⟨"阵雪", "🌨️"⟩
  else if 95 ≤ code then ⟨"雷暴", "⛈️"⟩
  else ⟨"多云", "⛅️"⟩

/-! ## Module resolution and render composition (App.tsx lines 188-190, 812-947)

`moduleView` is `query.get('module')` cast, with no validation: it is the
raw query value (`none` when the parameter is absent).  The render tree
branches on strict equality with the four module names and on JavaScript
truthiness of `moduleView` (`null` and the empty string are falsy).
We record which top-level cards are composed, in document order. -/

inductive Card where
  | timeCard
  | weatherCard
  | summaryCard
  | todoCard
  | agendaCard
  | desktopPeek
  | dock
deriving DecidableEq, Repr

/-- JavaScript truthiness of the `moduleView` value
(`string | null`): `null` and `""` are falsy. -/
def truthyModule : Option String → Bool
  | none => false
  | some s => !(s == "")

/-- The top-level card composition rendered by `App` as a function of
`desktopMode` and `moduleView`, following the JSX branching at
App.tsx lines 812-947 (the desktop-peek overlay panel and dock are
collapsed into the `desktopPeek`/`dock` markers). -/
def renderSections (desktopMode : Bool) (moduleView : Option String) : List Card :=
  if moduleView = some "todo" then [.todoCard]
  else if moduleView = some "agenda" then [.agendaCard]
  else
    (if moduleView = some "time" then [.timeCard]
     else if moduleView = some "weather" then [.weatherCard]
     else [.timeCard, .weatherCard, .summaryCard])
    ++
    (if desktopMode && !truthyModule moduleView then [.desktopPeek, .dock]
     else if !desktopMode && !truthyModule moduleView then [.todoCard, .agendaCard]
     else [])

/-! ## JSON values and a strict parse (modelling `JSON.parse`)

`parseJsonLenient` (App.tsx lines 55-73) wraps the host `JSON.parse`.
We embed JSON values and a recursive-descent parse of the JSON grammar
(whitespace, null/true/false, numbers kept as their lexeme, strings with
escapes, arrays, objects); `none` models a thrown `SyntaxError`. -/

inductive Json where
  | jnull : Json
  | jbool : Bool → Json
  | jnum : String → Json
  | jstr : String → Json
  | jarr : List Json → Json
  | jobj : List (String × Json) → Json

def isJsonWs (c : Char) : Bool :=
  c == ' ' || c == '\t' || c == '\n' || c == '\r'

def skipWs (cs : List Char) : List Char :=
  cs.dropWhile isJsonWs

def parseIntPart : List Char → Option (List Char × List Char)
  | [] => none
  | c :: cs =>
    if c == '0' then some ([c], cs)
    else if c.isDigit then
      some (c :: cs.takeWhile Char.isDigit, cs.dropWhile Char.isDigit)
    else none

def parseFracPart (cs : List Char) : Option (List Char × List Char) :=
  match cs with
  | '.' :: rest =>
    if (rest.takeWhile Char.isDigit).isEmpty then none
    else some ('.' :: rest.takeWhile Char.isDigit, rest.dropWhile Char.isDigit)
  | _ => some ([], cs)

def parseExpPart (cs : List Char) : Option (List Char × List Char) :=
  match cs with
  | c :: rest =>
    if c == 'e' || c == 'E' then
      let (sgn, rest2) :=
        match rest with
        | s :: r => if s == '+' || s == '-' then ([s], r) else (([] : List Char), rest)
        | [] => ([], rest)
      if (rest2.takeWhile Char.isDigit).isEmpty then none
      else some (c :: (sgn ++ rest2.takeWhile Char.isDigit), rest2.dropWhile Char.isDigit)
    else some ([], c :: rest)
  | [] => some ([], [])

def parseNumber (cs : List Char) : Option (String × List Char) := do
  let (sign, cs1) :=
    match cs with
    | '-' :: rest => ([('-' : Char)], rest)
    | _ => (([] : List Char), cs)
  let (ip, cs2) ← parseIntPart cs1
  let (fp, cs3) ← parseFracPart cs2
  let (ep, cs4) ← parseExpPart cs3
  pure (String.mk (sign ++ ip ++ fp ++ ep), cs4)

def hexNibble (c : Char) : Option Nat :=
  let n := c.toNat
  if 48 ≤ n && n ≤ 57 then some (n - 48)
  else if 97 ≤ n && n ≤ 102 then some (n - 87)
  else if 65 ≤ n && n ≤ 70 then some (n - 55)
  else none

def parseStringBody : List Char → List Char → Option (String × List Char)
  | [], _ => none
  | c :: cs, acc =>
    if c == '"' then some (String.mk acc.reverse, cs)
    else if c == '\\' then
      match cs with
      | [] => none
      | e :: cs2 =>
        if e == '"' then parseStringBody cs2 ('"' :: acc)
        else if e == '\\' then parseStringBody cs2 ('\\' :: acc)
        else if e == '/' then parseStringBody cs2 ('/' :: acc)
        else if e == 'b' then parseStringBody cs2 ('\x08' :: acc)
        else if e == 'f' then parseStringBody cs2 ('\x0c' :: acc)
        else if e == 'n' then parseStringBody cs2 ('\n' :: acc)
        else if e == 'r' then parseStringBody cs2 ('\r' :: acc)
        else if e == 't' then parseStringBody cs2 ('\t' :: acc)
        else if e == 'u' then
          match cs2 with
          | h1 :: h2 :: h3 :: h4 :: cs3 =>
            match hexNibble h1, hexNibble h2, hexNibble h3, hexNibble h4 with
            | some v1, some v2, some v3, some v4 =>
              parseStringBody cs3
                (Char.ofNat (v1 * 4096 + v2 * 256 + v3 * 16 + v4) :: acc)
            | _, _, _, _ => none
          | _ => none
        else none
    else if c.toNat < 32 then none
    else parseStringBody cs (c :: acc)

/-- The pending grammar production during recursive descent: a single
value, the remaining items of an array, or the remaining members of an
object (each with the items already parsed). -/
inductive ParseTask where
  | value : ParseTask
  | arrItems (acc : List Json) : ParseTask
  | objItems (acc : List (String × Json)) : ParseTask

/-- One recursive-descent engine for the JSON grammar, structurally
recursive on a fuel bound so that it reduces definitionally. -/
def parseStep : Nat → ParseTask → List Char → Option (Json × List Char)
  | 0, _, _ => none
  | fuel + 1, .value, cs =>
    match skipWs cs with
    | [] => none
    | c :: rest =>
      if c == 'n' then
        match rest with
        | 'u' :: 'l' :: 'l' :: r => some (.jnull, r)
        | _ => none
      else if c == 't' then
        match rest with
        | 'r' :: 'u' :: 'e' :: r => some (.jbool true, r)
        | _ => none
      else if c == 'f' then
        match rest with
        | 'a' :: 'l' :: 's' :: 'e' :: r => some (.jbool false, r)
        | _ => none
      else if c == '"' then
        match parseStringBody rest [] with
        | some (s, r) => some (.jstr s, r)
        | none => none
      else if c == '[' then
        match skipWs rest with
        | ']' :: r => some (.jarr [], r)
        | r2 => parseStep fuel (.arrItems []) r2
      else if c == '\x7b' then
        match skipWs rest with
        | '\x7d' :: r => some (.jobj [], r)
        | r2 => parseStep fuel (.objItems []) r2
      else
        match parseNumber (c :: rest) with
        | some (s, r) => some (.jnum s, r)
        | none => none
  | fuel + 1, .arrItems acc, cs =>
    match parseStep fuel .value cs with
    | none => none
    | some (v, rest) =>
      match skipWs rest with
      | ',' :: r => parseStep fuel (.arrItems (acc ++ [v])) r
      | ']' :: r => some (.jarr (acc ++ [v]), r)
      | _ => none
  | fuel + 1, .objItems acc, cs =>
    match skipWs cs with
    | '"' :: rest =>
      match parseStringBody rest [] with
      | none => none
      | some (k, rest2) =>
        match skipWs rest2 with
        | ':' :: rest3 =>
          match parseStep fuel .value rest3 with
          | none => none
          | some (v, rest4) =>
            match skipWs rest4 with
            | ',' :: r => parseStep fuel (.objItems (acc ++ [(k, v)])) r
            | '\x7d' :: r => some (.jobj (acc ++ [(k, v)]), r)
            | _ => none
        | _ => none
    | _ => none

/-- `JSON.parse`: parse one value surrounded by optional whitespace,
rejecting trailing input. The fuel bound exceeds any possible number of
recursive steps on the given text. -/
def parseJsonStrict (s : String) : Option Json :=
  let cs := s.data
  match parseStep (2 * cs.length + 2) .value cs with
  | some (v, rest) => if (skipWs rest).isEmpty then some v else none
  | none => none

/-- JavaScript `String.prototype.trim`: strip whitespace from both ends
(defined over the character list so that it reduces definitionally). -/
def jsTrim (s : String) : String :=
  String.mk (((s.data.dropWhile Char.isWhitespace).reverse.dropWhile Char.isWhitespace).reverse)

/-- JavaScript `String.prototype.indexOf` for a single character. -/
def firstIdxAux (c : Char) : List Char → Nat → Option Nat
  | [], _ => none
  | x :: xs, i => if x == c then some i else firstIdxAux c xs (i + 1)

def firstIdx (cs : List Char) (c : Char) : Option Nat :=
  firstIdxAux c cs 0

/-- JavaScript `String.prototype.lastIndexOf` for a single character. -/
def lastIdx (cs : List Char) (c : Char) : Option Nat :=
  (firstIdx cs.reverse c).map (fun i => cs.length - 1 - i)

/-- `Math.min` over the bracket candidates that exist
(the source filters `indexOf` results `>= 0` first). -/
def jsMin2 : Option Nat → Option Nat → Option Nat
  | none, b => b
  | some a, none => some a
  | some a, some b => some (min a b)

/-- `Math.max` over the bracket candidates that exist. -/
def jsMax2 : Option Nat → Option Nat → Option Nat
  | none, b => b
  | some a, none => some a
  | some a, some b => some (max a b)

/-- `parseJsonLenient` (App.tsx lines 55-73): strict parse of the trimmed
text; on failure, slice from the earliest `\x7b`/`[` through the latest
`\x7d`/`]` of the suffix starting there, and strict-parse that slice. -/
def parseJsonLenient (rawText : String) : Option Json :=
  let text := jsTrim rawText
  match parseJsonStrict text with
  | some v => some v
  | none =>
    let cs := text.data
    match jsMin2 (firstIdx cs '\x7b') (firstIdx cs '[') with
    | none => none
    | some start =>
      let sliced := cs.drop start
      match jsMax2 (lastIdx sliced '\x7d') (lastIdx sliced ']') with
      | none => none
      | some e => parseJsonStrict (String.mk (sliced.take (e + 1)))

/-! ## Data model and persistence (App.tsx lines 15-51, 192-241)

`TodoItem` and `AgendaItem` are the persisted records.  `saveStorage`
writes `JSON.stringify(value)` under the key; the React effects at lines
227-241 run it for the affected key after every state change, so each
state-setting operation below also updates the corresponding stored
string.  The store holds the four `storageKeys` entries. -/

structure TodoItem where
  id : String
  title : String
  time : String
  priority : String
  done : Bool
deriving DecidableEq, Repr

structure AgendaItem where
  id : String
  title : String
  time : String
  location : String
deriving DecidableEq, Repr

inductive CityMode where
  | auto
  | manual
deriving DecidableEq, Repr

def hexDigit (n : Nat) : Char :=
  if n < 10 then Char.ofNat ('0'.toNat + n) else Char.ofNat ('a'.toNat + n - 10)

/-- `JSON.stringify` escaping for one character of a string value. -/
def escapeJsonChar (c : Char) : List Char :=
  if c == '"' then ['\\', '"']
  else if c == '\\' then ['\\', '\\']
  else if c == '\x08' then ['\\', 'b']
  else if c == '\t' then ['\\', 't']
  else if c == '\n' then ['\\', 'n']
  else if c == '\x0c' then ['\\', 'f']
  else if c == '\r' then ['\\', 'r']
  else if c.toNat < 32 then
    ['\\', 'u', '0', '0', hexDigit (c.toNat / 16), hexDigit (c.toNat % 16)]
  else [c]

/-- `JSON.stringify` of a string value. -/
def stringifyString (s : String) : String :=
  String.mk ('"' :: (s.data.flatMap escapeJsonChar) ++ ['"'])

/-- `JSON.stringify` of a `TodoItem` (keys in object-literal order). -/
def stringifyTodo (t : TodoItem) : String :=
  "\x7b\"id\":" ++ stringifyString t.id ++
  ",\"title\":" ++ stringifyString t.title ++
  ",\"time\":" ++ stringifyString t.time ++
  ",\"priority\":" ++ stringifyString t.priority ++
  ",\"done\":" ++ (if t.done then "true" else "false") ++ "\x7d"

def stringifyTodos (ts : List TodoItem) : String :=
  "[" ++ String.intercalate "," (ts.map stringifyTodo) ++ "]"

/-- `JSON.stringify` of an `AgendaItem` (keys in object-literal order). -/
def stringifyAgendaItem (a : AgendaItem) : String :=
  "\x7b\"id\":" ++ stringifyString a.id ++
  ",\"title\":" ++ stringifyString a.title ++
  ",\"time\":" ++ stringifyString a.time ++
  ",\"location\":" ++ stringifyString a.location ++ "\x7d"

def stringifyAgendas (as : List AgendaItem) : String :=
  "[" ++ String.intercalate "," (as.map stringifyAgendaItem) ++ "]"

def stringifyCityMode : CityMode → String
  | .auto => stringifyString "auto"
  | .manual => stringifyString "manual"

/-- The `localStorage` entries under the four `storageKeys`
(`none` = key absent). -/
structure Store where
  todosKey : Option String
  agendaKey : Option String
  cityKey : Option String
  cityModeKey : Option String
deriving DecidableEq, Repr

/-- The mutable state owned by `App` that the claims concern, together
with the persistent store the save effects write to. -/
structure AppState where
  todos : List TodoItem
  agenda : List AgendaItem
  city : String
  cityMode : CityMode
  store : Store
deriving DecidableEq, Repr

/-- `setTodos` followed by the `saveStorage(storageKeys.todos, todos)`
effect (App.tsx lines 227-229). -/
def setTodosState (st : AppState) (ts : List TodoItem) : AppState :=
  { st with todos := ts, store := { st.store with todosKey := some (stringifyTodos ts) } }

/-- `setAgenda` followed by the `saveStorage(storageKeys.agenda, agenda)`
effect (App.tsx lines 231-233). -/
def setAgendaState (st : AppState) (as : List AgendaItem) : AppState :=
  { st with agenda := as, store := { st.store with agendaKey := some (stringifyAgendas as) } }

/-- `addTodo` (App.tsx lines 441-455): silent no-op on empty title/time,
else append a fresh item with `done := false`.  `freshId` is the value
`createId()` returned for this call. -/
def addTodo (st : AppState) (freshId title time priority : String) : AppState :=
  if title = "" ∨ time = "" then st
  else setTodosState st (st.todos ++ [⟨freshId, title, time, priority, false⟩])

/-- `toggleTodo` (App.tsx lines 457-459). -/
def toggleTodo (st : AppState) (id : String) : AppState :=
  setTodosState st
    (st.todos.map fun item => if item.id = id then { item with done := !item.done } else item)

/-- `deleteTodo` (App.tsx lines 461-463). -/
def deleteTodo (st : AppState) (id : String) : AppState :=
  setTodosState st (st.todos.filter fun item => item.id != id)

/-- `addAgenda` (App.tsx lines 465-478): silent no-op on empty
title/time; `location: agendaForm.location || '待定'`. -/
def addAgenda (st : AppState) (freshId title time location : String) : AppState :=
  if title = "" ∨ time = "" then st
  else setAgendaState st
    (st.agenda ++ [⟨freshId, title, time, if location = "" then "待定" else location⟩])

/-- `deleteAgenda` (App.tsx lines 480-482). -/
def deleteAgenda (st : AppState) (id : String) : AppState :=
  setAgendaState st (st.agenda.filter fun item => item.id != id)

/-- `setCity(name)` and `setCityMode(mode)` with their save effects
(App.tsx lines 235-241): both fields and both stored keys replaced. -/
def setCityOp (st : AppState) (name : String) (mode : CityMode) : AppState :=
  { st with
    city := name
    cityMode := mode
    store := { st.store with
      cityKey := some (stringifyString name)
      cityModeKey := some (stringifyCityMode mode) } }

/-- A state-controller operation, with the id `createId()` produced for
an add already supplied. -/
inductive Op where
  | addTodo (freshId title time priority : String)
  | toggleTodo (id : String)
  | deleteTodo (id : String)
  | addAgenda (freshId title time location : String)
  | deleteAgenda (id : String)
  | setCity (name : String) (mode : CityMode)

def applyOp (st : AppState) : Op → AppState
  | .addTodo i t tm p => addTodo st i t tm p
  | .toggleTodo i => toggleTodo st i
  | .deleteTodo i => deleteTodo st i
  | .addAgenda i t tm l => addAgenda st i t tm l
  | .deleteAgenda i => deleteAgenda st i
  | .setCity c m => setCityOp st c m

def applyOps (st : AppState) (ops : List Op) : AppState :=
  ops.foldl applyOp st

/-- The persisted value under each key is the serialization of the
current in-memory value. -/
def synced (st : AppState) : Prop :=
  st.store.todosKey = some (stringifyTodos st.todos) ∧
  st.store.agendaKey = some (stringifyAgendas st.agenda) ∧
  st.store.cityKey = some (stringifyString st.city) ∧
  st.store.cityModeKey = some (stringifyCityMode st.cityMode)

/-- The state right after mount with empty persisted collections: the
defaults of App.tsx lines 192-202 after the initial save effects ran. -/
def initialState : AppState :=
  { todos := []
    agenda := []
    city := "上海"
    cityMode := .auto
    store :=
      { todosKey := some (stringifyTodos [])
        agendaKey := some (stringifyAgendas [])
        cityKey := some (stringifyString "上海")
        cityModeKey := some (stringifyCityMode .auto) } }

/-! ## Weather provider (App.tsx lines 96-107, 278-400)

The network fetches are modelled as oracles: each oracle result is
`none` when the corresponding `fetchJson` threw (network error, timeout,
bad status, or unparseable body), and carries the decoded payload
otherwise.  Floating-point payload numbers are modelled as rationals;
`parseInt` results as `Option Int` with `none` for `NaN`. -/

/-- `String.prototype.toLowerCase` (over the character list so that it
reduces definitionally; the source only lowercases ASCII city names). -/
def toLowerStr (s : String) : String :=
  String.mk (s.data.map Char.toLower)

/-- `normalizeCityName` (App.tsx lines 96-107). -/
def normalizeCityName (raw : String) : String :=
  let value := jsTrim raw
  if value = "" then ""
  else
    let lower := toLowerStr value
    if lower = "ningbo" then "宁波"
    else if lower = "beijing" then "北京"
    else if lower = "shanghai" then "上海"
    else if lower = "hangzhou" then "杭州"
    else if lower = "shenzhen" then "深圳"
    else if lower = "guangzhou" then "广州"
    else value

/-- JavaScript `Math.round`: half-up, toward positive infinity. -/
def jsRound (x : Rat) : Int :=
  (x + 1/2).floor

/-- JavaScript `parseInt` on a decimal string: skip leading whitespace,
optional sign, then the leading digit run; `none` models `NaN`. -/
def jsParseInt (s : String) : Option Int :=
  let cs := s.data.dropWhile Char.isWhitespace
  let (neg, cs1) :=
    match cs with
    | '-' :: r => (true, r)
    | '+' :: r => (false, r)
    | _ => (false, cs)
  let ds := cs1.takeWhile Char.isDigit
  if ds.isEmpty then none
  else
    let n := ds.foldl (fun acc c => 10 * acc + (c.toNat - 48)) (0 : Nat)
    some (if neg then -(n : Int) else (n : Int))

/-- Substring membership, JavaScript `String.prototype.includes`. -/
def startsWithChars : List Char → List Char → Bool
  | _, [] => true
  | [], _ :: _ => false
  | c :: cs, p :: ps => c == p && startsWithChars cs ps

def containsChars : List Char → List Char → Bool
  | [], p => p.isEmpty
  | c :: cs, p => startsWithChars (c :: cs) p || containsChars cs p

def strIncludes (s sub : String) : Bool :=
  containsChars s.data sub.data

structure WeatherInfo where
  city : String
  condition : String
  /-- `none` models a `NaN` stored by the fallback path's `parseInt`. -/
  temperature : Option Int
  feels : Option Int
  humidity : Option Int
  wind : String
  air : String
  icon : String
deriving DecidableEq, Repr

/-- The first ranked geocoding match (`geo.results?.[0]`). -/
structure GeoResult where
  name : String
  latitude : Rat
  longitude : Rat
deriving DecidableEq, Repr

/-- The `forecast.current` payload of the primary path. -/
structure CurrentWeather where
  temperature_2m : Rat
  apparent_temperature : Rat
  relative_humidity_2m : Rat
  wind_speed_10m : Rat
  weather_code : Int
deriving DecidableEq, Repr

/-- One entry of `data.current_condition` from the text-report provider;
`weatherDesc` holds the `value` fields of its entries. -/
structure TextCondition where
  temp_C : String
  FeelsLikeC : String
  humidity : String
  windspeedKmph : String
  weatherDesc : List String
deriving DecidableEq, Repr

structure TextReport where
  current_condition : List TextCondition
deriving DecidableEq, Repr

/-- Outcomes of the three kinds of weather network fetches.  The outer
`Option` is the fetch itself (`none` = `fetchJson` threw); the inner
`Option` in the first two is the optional field of the payload. -/
structure WeatherEnv where
  geocode : String → Option (Option GeoResult)
  forecast : Rat → Rat → Option (Option CurrentWeather)
  textReport : String → Option TextReport

inductive WeatherStatus where
  | loading
  | ready
  | error
deriving DecidableEq, Repr

structure WeatherState where
  weather : Option WeatherInfo
  status : WeatherStatus
deriving DecidableEq, Repr

/-- The primary geocode+forecast path of `fetchWeather` (App.tsx lines
287-327): `none` when any step threw (`no geocoding result`,
`no current weather`, or a failed fetch). -/
def primaryFetch (env : WeatherEnv) (normalized : String) : Option WeatherInfo :=
  match env.geocode normalized with
  | none => none
  | some none => none
  | some (some first) =>
    match env.forecast first.latitude first.longitude with
    | none => none
    | some none => none
    | some (some current) =>
      let mapped := mapWmoToWeather current.weather_code
      some
        { city := normalized
          condition := mapped.text
          temperature := some (jsRound current.temperature_2m)
          feels := some (jsRound current.apparent_temperature)
          humidity := some (jsRound current.relative_humidity_2m)
          wind := toString (jsRound current.wind_speed_10m) ++ " km/h"
          air := "实时"
          icon := mapped.icon }

/-- The ordered keyword classification of the fallback path
(App.tsx lines 342-352). -/
def classifyDesc (desc : String) : String × String :=
  if strIncludes desc "sunny" || strIncludes desc "clear" then ("晴", "☀️")
  else if strIncludes desc "partly cloudy" then ("多云", "⛅️")
  else if strIncludes desc "cloudy" || strIncludes desc "overcast" then ("阴", "☁️")
  else if strIncludes desc "rain" || strIncludes desc "drizzle" || strIncludes desc "shower" then
    ("雨", "🌧️")
  else if strIncludes desc "snow" || strIncludes desc "ice" || strIncludes desc "blizzard" then
    ("雪", "🌨️")
  else if strIncludes desc "thunder" then ("雷暴", "⛈️")
  else if strIncludes desc "fog" || strIncludes desc "mist" || strIncludes desc "haze" then
    ("雾", "🌫️")
  else ("多云", "⛅️")

/-- The fallback text-report path of `fetchWeather` (App.tsx lines
328-366): `none` when the fetch threw or `current_condition` is empty. -/
def secondaryFetch (env : WeatherEnv) (normalized : String) : Option WeatherInfo :=
  match env.textReport normalized with
  | none => none
  | some data =>
    match data.current_condition.head? with
    | none => none
    | some current =>
      let desc := toLowerStr (current.weatherDesc.head?.getD "")
      let cls := classifyDesc desc
      some
        { city := normalized
          condition := cls.1
          temperature := jsParseInt current.temp_C
          feels := jsParseInt current.FeelsLikeC
          humidity := jsParseInt current.humidity
          wind := current.windspeedKmph ++ " km/h"
          air := "实时"
          icon := cls.2 }

/-- `fetchWeather` (App.tsx lines 278-372): normalize, try the primary
path, on any primary throw try the fallback path, on failure of both set
only the status to `error` and keep the previous `weather` value.
Returns the new weather state and the boolean the source returns. -/
def fetchWeather (env : WeatherEnv) (ws : WeatherState) (targetCity : String) :
    WeatherState × Bool :=
  let normalized := normalizeCityName targetCity
  if normalized = "" then ({ ws with status := .error }, false)
  else
    match primaryFetch env normalized with
    | some info => ({ weather := some info, status := .ready }, true)
    | none =>
      match secondaryFetch env normalized with
      | some info => ({ weather := some info, status := .ready }, true)
      | none => ({ ws with status := .error }, false)

/-- Whether `fetchWeather` succeeds for this city under this
environment (its boolean result does not depend on the prior state). -/
def weatherResolvable (env : WeatherEnv) (targetCity : String) : Bool :=
  normalizeCityName targetCity != "" &&
    ((primaryFetch env (normalizeCityName targetCity)).isSome ||
     (secondaryFetch env (normalizeCityName targetCity)).isSome)

/-- The city preference: the `city` and `cityMode` pair. -/
structure CityPref where
  city : String
  mode : CityMode
deriving DecidableEq, Repr

/-- The `for (const endpoint of ipEndpoints)` loop of `locateWeather`
(App.tsx lines 374-400).  `results` are the per-endpoint `fetchJson`
outcomes, in endpoint order: `none` = the fetch threw (`catch`
`continue`); `some cityField` = decoded payload with its optional
`city` field.  On the first endpoint whose truthy city also resolves
weather, the city preference is committed with `mode = auto`. -/
def locateLoop (env : WeatherEnv) (results : List (Option (Option String)))
    (ws : WeatherState) (pref : CityPref) : WeatherState × CityPref :=
  match results with
  | [] => (ws, pref)
  | r :: rest =>
    match r with
    | none => locateLoop env rest ws pref
    | some cityField =>
      let cityVal := cityField.getD ""
      if cityVal = "" then locateLoop env rest ws pref
      else
        let cityName := normalizeCityName cityVal
        let fw := fetchWeather env ws cityName
        if fw.2 then (fw.1, { city := cityName, mode := .auto })
        else locateLoop env rest fw.1 pref

/-- An endpoint outcome that the loop swallows: a thrown fetch, a
missing or empty `city` field, or a city whose weather resolution
fails. -/
def endpointFails (env : WeatherEnv) (r : Option (Option String)) : Bool :=
  match r with
  | some (some c) => c == "" || !(weatherResolvable env (normalizeCityName c))
  | _ => true

/-- Committing the city editor (App.tsx lines 522-539, the `onBlur` /
Enter handlers): `setCity(value.trim() || city)` then
`setCityMode('manual')`, with their save effects. -/
def commitCityEdit (st : AppState) (input : String) : AppState :=
  setCityOp st (if jsTrim input = "" then st.city else jsTrim input) .manual

/-! ## Operations as the user invokes them (for the id-uniqueness claim)

`createId()` is modelled as a generator `gen` indexed by how many ids
have been handed out so far; an add that is a silent no-op does not
invoke `createId`. -/

inductive UserOp where
  | addTodo (title time priority : String)
  | toggleTodo (id : String)
  | deleteTodo (id : String)
  | addAgenda (title time location : String)
  | deleteAgenda (id : String)
  | setCity (name : String) (mode : CityMode)

def applyUserOp (gen : Nat → String) : AppState × Nat → UserOp → AppState × Nat
  | (st, n), .addTodo t tm p =>
    if t = "" ∨ tm = "" then (st, n) else (addTodo st (gen n) t tm p, n + 1)
  | (st, n), .toggleTodo i => (toggleTodo st i, n)
  | (st, n), .deleteTodo i => (deleteTodo st i, n)
  | (st, n), .addAgenda t tm l =>
    if t = "" ∨ tm = "" then (st, n) else (addAgenda st (gen n) t tm l, n + 1)
  | (st, n), .deleteAgenda i => (deleteAgenda st i, n)
  | (st, n), .setCity c m => (setCityOp st c m, n)

def applyUserOps (gen : Nat → String) (init : AppState × Nat) (ops : List UserOp) :
    AppState × Nat :=
  ops.foldl (applyUserOp gen) init

/-! ## Theorems -/

/-- C1 counterexample: launching with `module=banana` does not render the
composition that an absent `module` parameter renders — the unrecognized
value keeps the hero trio but suppresses the main todo/agenda grid, so
the two compositions differ. -/
theorem c1_banana_render_differs_from_absent :
    renderSections false (some "banana") ≠ renderSections false none := by decide

/-- C1 amended: resolution never fails; `module=todo` renders only the
todo view; but an unrecognized non-empty `module` value is not mapped to
the full-dashboard identity: it renders the hero trio (time, weather,
summary) while suppressing the todo/agenda grid that the
absent-parameter dashboard shows. -/
theorem c1_module_render_spec (d : Bool) (m : String)
    (h1 : m ≠ "time") (h2 : m ≠ "weather") (h3 : m ≠ "todo") (h4 : m ≠ "agenda")
    (h5 : m ≠ "") :
    renderSections d (some "todo") = [.todoCard] ∧
    renderSections false none =
      [.timeCard, .weatherCard, .summaryCard, .todoCard, .agendaCard] ∧
    renderSections d (some m) = [.timeCard, .weatherCard, .summaryCard] := by
  refine ⟨by simp [renderSections, truthyModule], by decide, ?_⟩
  simp [renderSections, truthyModule, h1, h2, h3, h4, h5]

/-- C1 amended witness at `module=banana`. -/
theorem c1_module_render_spec_witness :
    renderSections false (some "todo") = [.todoCard] ∧
    renderSections false none =
      [.timeCard, .weatherCard, .summaryCard, .todoCard, .agendaCard] ∧
    renderSections false (some "banana") = [.timeCard, .weatherCard, .summaryCard] :=
  c1_module_render_spec false "banana" (by decide) (by decide) (by decide) (by decide)
    (by decide)

/-- C3 counterexample: code 999 does not map to the default
partly-cloudy classification (the `code >= 95` thunderstorm rule
captures it). -/
theorem c3_code999_not_default :
    mapWmoToWeather 999 ≠ ⟨"多云", "⛅️"⟩ := by decide

/-- C3 amended: code 0 maps to the clear classification, code 61 to the
rain classification, and code 999 to the thunderstorm classification
(captured by the `>= 95` rule); a value not covered by any listed rule,
such as 4, maps to the default partly-cloudy classification. -/
theorem c3_weather_code_mapping :
    mapWmoToWeather 0 = ⟨"晴", "☀️"⟩ ∧
    mapWmoToWeather 61 = ⟨"雨", "🌧️"⟩ ∧
    mapWmoToWeather 999 = ⟨"雷暴", "⛈️"⟩ ∧
    mapWmoToWeather 4 = ⟨"多云", "⛅️"⟩ := by decide

/-- C6: `addTodo` is a silent no-op (state and store untouched) when
title or time is empty; otherwise it appends exactly one new item with
the given fields, `done := false` and the fresh id, leaving the previous
items and the agenda unchanged. -/
theorem c6_addTodo_spec (st : AppState) (freshId title time priority : String) :
    ((title = "" ∨ time = "") → addTodo st freshId title time priority = st) ∧
    (title ≠ "" → time ≠ "" →
      (addTodo st freshId title time priority).todos =
        st.todos ++ [⟨freshId, title, time, priority, false⟩] ∧
      (addTodo st freshId title time priority).agenda = st.agenda) := by
  constructor
  · intro h
    simp [addTodo, h]
  · intro h1 h2
    simp [addTodo, h1, h2, setTodosState]

/-- C6 witness: the two empty-field no-ops of the spec and one
successful append, at concrete inputs. -/
theorem c6_addTodo_spec_witness :
    addTodo initialState "id0" "" "13:00" "高" = initialState ∧
    addTodo initialState "id0" "Buy milk" "" "高" = initialState ∧
    (addTodo initialState "id0" "Buy milk" "13:00" "高").todos =
      [⟨"id0", "Buy milk", "13:00", "高", false⟩] := by
  refine ⟨(c6_addTodo_spec initialState "id0" "" "13:00" "高").1 (Or.inl rfl),
    (c6_addTodo_spec initialState "id0" "Buy milk" "" "高").1 (Or.inr rfl), ?_⟩
  have h :=
    ((c6_addTodo_spec initialState "id0" "Buy milk" "13:00" "高").2
      (by decide) (by decide)).1
  simpa [initialState] using h

/-- C7: `addAgenda` is a silent no-op when title or time is empty;
otherwise it appends exactly one item whose location is the given one
when non-empty and `"待定"` when empty, leaving the todos unchanged. -/
theorem c7_addAgenda_spec (st : AppState) (freshId title time location : String) :
    ((title = "" ∨ time = "") → addAgenda st freshId title time location = st) ∧
    (title ≠ "" → time ≠ "" →
      (addAgenda st freshId title time location).agenda =
        st.agenda ++ [⟨freshId, title, time,
          if location = "" then "待定" else location⟩] ∧
      (addAgenda st freshId title time location).todos = st.todos) := by
  constructor
  · intro h
    simp [addAgenda, h]
  · intro h1 h2
    simp [addAgenda, h1, h2, setAgendaState]

/-- C7 witness: `addAgenda("Standup", "09:00", "")` yields location
exactly `"待定"`. -/
theorem c7_addAgenda_spec_witness :
    (addAgenda initialState "id0" "Standup" "09:00" "").agenda =
      [⟨"id0", "Standup", "09:00", "待定"⟩] := by
  have h :=
    ((c7_addAgenda_spec initialState "id0" "Standup" "09:00" "").2
      (by decide) (by decide)).1
  simpa [initialState] using h

/-- C10: committing the city editor with an input whose trimmed value is
empty keeps the previous city while switching the mode to manual; with a
non-empty trimmed input the city becomes exactly the trimmed input and
the mode becomes manual. -/
theorem c10_commitCityEdit_spec (st : AppState) (input : String) :
    (jsTrim input = "" →
      (commitCityEdit st input).city = st.city ∧
      (commitCityEdit st input).cityMode = .manual) ∧
    (jsTrim input ≠ "" →
      (commitCityEdit st input).city = jsTrim input ∧
      (commitCityEdit st input).cityMode = .manual) := by
  constructor
  · intro h
    simp [commitCityEdit, setCityOp, h]
  · intro h
    simp [commitCityEdit, setCityOp, h]

/-- C10 witness: a whitespace-only input keeps the previous city, a
padded input commits its trimmed value; both switch the mode to
manual. -/
theorem c10_commitCityEdit_spec_witness :
    (commitCityEdit initialState "   ").city = "上海" ∧
    (commitCityEdit initialState "   ").cityMode = .manual ∧
    (commitCityEdit initialState " 北京 ").city = "北京" := by
  have h1 := (c10_commitCityEdit_spec initialState "   ").1 (by decide)
  have h2 := (c10_commitCityEdit_spec initialState " 北京 ").2 (by decide)
  exact ⟨h1.1, h1.2, h2.1⟩

/-- C2: every state-controller operation re-serializes the affected
collection to the store, so from any synced state, after any sequence of
addTodo/toggleTodo/deleteTodo/addAgenda/deleteAgenda/setCity operations
the persisted value under each key is exactly the JSON serialization of
the in-memory value — no drift after any prefix, since every prefix is
itself such a sequence. -/
theorem c2_no_drift (st : AppState) (h : synced st) (ops : List Op) :
    synced (applyOps st ops) := by
  induction ops generalizing st with
  | nil => exact h
  | cons op rest ih =>
    apply ih
    obtain ⟨h1, h2, h3, h4⟩ := h
    cases op with
    | addTodo i t tm p =>
      by_cases hc : t = "" ∨ tm = ""
      · simpa [applyOp, addTodo, hc] using ⟨h1, h2, h3, h4⟩
      · simp [applyOp, addTodo, hc, setTodosState, synced, h2, h3, h4]
    | toggleTodo i =>
      simp [applyOp, toggleTodo, setTodosState, synced, h2, h3, h4]
    | deleteTodo i =>
      simp [applyOp, deleteTodo, setTodosState, synced, h2, h3, h4]
    | addAgenda i t tm l =>
      by_cases hc : t = "" ∨ tm = ""
      · simpa [applyOp, addAgenda, hc] using ⟨h1, h2, h3, h4⟩
      · simp [applyOp, addAgenda, hc, setAgendaState, synced, h1, h3, h4]
    | deleteAgenda i =>
      simp [applyOp, deleteAgenda, setAgendaState, synced, h1, h3, h4]
    | setCity c m =>
      simp [applyOp, setCityOp, synced, h1, h2]

/-- C2 witness: a concrete operation sequence from the initial synced
state stays synced. -/
theorem c2_no_drift_witness :
    synced (applyOps initialState
      [Op.addTodo "id0" "Buy milk" "13:00" "高", Op.toggleTodo "id0",
       Op.addAgenda "id1" "Standup" "09:00" "", Op.deleteTodo "id0",
       Op.setCity "北京" .manual]) :=
  c2_no_drift initialState ⟨rfl, rfl, rfl, rfl⟩ _

/-- All ids in both collections come from generator indexes below the
counter, and each collection's ids are pairwise distinct. -/
def idsFresh (gen : Nat → String) (st : AppState) (n : Nat) : Prop :=
  (∀ x ∈ st.todos.map TodoItem.id, ∃ k, k < n ∧ x = gen k) ∧
  (∀ x ∈ st.agenda.map AgendaItem.id, ∃ k, k < n ∧ x = gen k) ∧
  (st.todos.map TodoItem.id).Nodup ∧
  (st.agenda.map AgendaItem.id).Nodup

theorem idsFresh_step (gen : Nat → String) (hg : Function.Injective gen)
    (st : AppState) (n : Nat) (op : UserOp) (h : idsFresh gen st n) :
    idsFresh gen (applyUserOp gen (st, n) op).1 (applyUserOp gen (st, n) op).2 := by
  obtain ⟨hb1, hb2, hn1, hn2⟩ := h
  have fresh_todo : gen n ∉ st.todos.map TodoItem.id := by
    intro hx
    obtain ⟨k, hk, hxk⟩ := hb1 _ hx
    exact absurd (hg hxk.symm) (Nat.ne_of_lt hk)
  have fresh_agenda : gen n ∉ st.agenda.map AgendaItem.id := by
    intro hx
    obtain ⟨k, hk, hxk⟩ := hb2 _ hx
    exact absurd (hg hxk.symm) (Nat.ne_of_lt hk)
  cases op with
  | addTodo t tm p =>
    by_cases hc : t = "" ∨ tm = ""
    · simpa [applyUserOp, hc] using ⟨hb1, hb2, hn1, hn2⟩
    · refine ⟨?_, ?_, ?_, ?_⟩ <;>
        simp only [applyUserOp, hc, if_false, addTodo, setTodosState, List.map_append,
          List.map_cons, List.map_nil]
      · intro x hx
        rcases List.mem_append.mp hx with hx | hx
        · obtain ⟨k, hk, hxk⟩ := hb1 _ hx
          exact ⟨k, Nat.lt_succ_of_lt hk, hxk⟩
        · simp at hx
          exact ⟨n, Nat.lt_succ_self n, hx⟩
      · intro x hx
        obtain ⟨k, hk, hxk⟩ := hb2 _ hx
        exact ⟨k, Nat.lt_succ_of_lt hk, hxk⟩
      · exact List.Nodup.append hn1 (List.nodup_singleton _)
          (List.disjoint_singleton.mpr fresh_todo)
      · exact hn2
  | addAgenda t tm l =>
    by_cases hc : t = "" ∨ tm = ""
    · simpa [applyUserOp, hc] using ⟨hb1, hb2, hn1, hn2⟩
    · refine ⟨?_, ?_, ?_, ?_⟩ <;>
        simp only [applyUserOp, hc, if_false, addAgenda, setAgendaState, List.map_append,
          List.map_cons, List.map_nil]
      · intro x hx
        obtain ⟨k, hk, hxk⟩ := hb1 _ hx
        exact ⟨k, Nat.lt_succ_of_lt hk, hxk⟩
      · intro x hx
        rcases List.mem_append.mp hx with hx | hx
        · obtain ⟨k, hk, hxk⟩ := hb2 _ hx
          exact ⟨k, Nat.lt_succ_of_lt hk, hxk⟩
        · simp at hx
          exact ⟨n, Nat.lt_succ_self n, hx⟩
      · exact hn1
      · exact List.Nodup.append hn2 (List.nodup_singleton _)
          (List.disjoint_singleton.mpr fresh_agenda)
  | toggleTodo i =>
    have hmap : (st.todos.map fun item =>
        if item.id = i then { item with done := !item.done } else item).map TodoItem.id =
        st.todos.map TodoItem.id := by
      rw [List.map_map]
      refine List.map_congr_left ?_
      intro a _
      by_cases ha : a.id = i <;> simp [ha]
    refine ⟨?_, hb2, ?_, hn2⟩ <;>
      simp only [applyUserOp, toggleTodo, setTodosState, hmap]
    · exact hb1
    · exact hn1
  | deleteTodo i =>
    have hsub : ((st.todos.filter fun item => item.id != i).map TodoItem.id).Sublist
        (st.todos.map TodoItem.id) :=
      List.Sublist.map _ (List.filter_sublist _)
    refine ⟨?_, hb2, ?_, hn2⟩ <;>
      simp only [applyUserOp, deleteTodo, setTodosState]
    · intro x hx
      exact hb1 _ (hsub.mem hx)
    · exact hn1.sublist hsub
  | deleteAgenda i =>
    have hsub : ((st.agenda.filter fun item => item.id != i).map AgendaItem.id).Sublist
        (st.agenda.map AgendaItem.id) :=
      List.Sublist.map _ (List.filter_sublist _)
    refine ⟨hb1, ?_, hn1, ?_⟩ <;>
      simp only [applyUserOp, deleteAgenda, setAgendaState]
    · intro x hx
      exact hb2 _ (hsub.mem hx)
    · exact hn2.sublist hsub
  | setCity c m =>
    exact ⟨hb1, hb2, hn1, hn2⟩

theorem idsFresh_ops (gen : Nat → String) (hg : Function.Injective gen)
    (p : AppState × Nat) (h : idsFresh gen p.1 p.2) (ops : List UserOp) :
    idsFresh gen (applyUserOps gen p ops).1 (applyUserOps gen p ops).2 := by
  induction ops generalizing p with
  | nil => exact h
  | cons op rest ih => exact ih _ (idsFresh_step gen hg p.1 p.2 op h)

/-- C8: with the ids produced by an injective generator (the model of
`createId`), every sequence of state-controller operations starting from
the empty collections keeps the ids pairwise distinct within the todo
collection and within the agenda collection. -/
theorem c8_ids_nodup (gen : Nat → String) (hg : Function.Injective gen)
    (ops : List UserOp) :
    ((applyUserOps gen (initialState, 0) ops).1.todos.map TodoItem.id).Nodup ∧
    ((applyUserOps gen (initialState, 0) ops).1.agenda.map AgendaItem.id).Nodup := by
  have h := idsFresh_ops gen hg (initialState, 0)
    ⟨by simp [initialState], by simp [initialState], by simp [initialState],
     by simp [initialState]⟩ ops
  exact ⟨h.2.2.1, h.2.2.2⟩

/-- A concrete injective id generator for the witness. -/
def genRepl (n : Nat) : String :=
  String.mk (List.replicate n 'a')

theorem genRepl_injective : Function.Injective genRepl := by
  intro a b h
  have := congrArg String.length h
  simpa [genRepl, String.length] using this

/-- C8 witness: two concrete adds through the generator leave the id
lists without duplicates. -/
theorem c8_ids_nodup_witness :
    ((applyUserOps genRepl (initialState, 0)
        [UserOp.addTodo "Buy milk" "13:00" "高",
         UserOp.addTodo "Call mom" "14:00" "中",
         UserOp.addAgenda "Standup" "09:00" ""]).1.todos.map TodoItem.id).Nodup ∧
    ((applyUserOps genRepl (initialState, 0)
        [UserOp.addTodo "Buy milk" "13:00" "高",
         UserOp.addTodo "Call mom" "14:00" "中",
         UserOp.addAgenda "Standup" "09:00" ""]).1.agenda.map AgendaItem.id).Nodup :=
  c8_ids_nodup genRepl genRepl_injective _

/-- C4: with a non-empty normalized city, if the primary geocode+forecast
path throws (`primaryFetch = none`) the fallback text-report path decides
the outcome: its success yields the ready state with its report, and when
both paths fail the status becomes `error` while the previously stored
weather value is retained unchanged. -/
theorem c4_fetchWeather_fallback (env : WeatherEnv) (ws : WeatherState) (city : String)
    (hcity : normalizeCityName city ≠ "") :
    (∀ info, primaryFetch env (normalizeCityName city) = none →
      secondaryFetch env (normalizeCityName city) = some info →
      fetchWeather env ws city = ({ weather := some info, status := .ready }, true)) ∧
    (primaryFetch env (normalizeCityName city) = none →
      secondaryFetch env (normalizeCityName city) = none →
      fetchWeather env ws city = ({ ws with status := .error }, false)) := by
  constructor
  · intro info h1 h2
    simp [fetchWeather, hcity, h1, h2]
  · intro h1 h2
    simp [fetchWeather, hcity, h1, h2]

/-- An environment in which every network fetch throws. -/
def envNoData : WeatherEnv :=
  { geocode := fun _ => none, forecast := fun _ _ => none, textReport := fun _ => none }

/-- A previously displayed weather value for the witnesses. -/
def priorWeather : WeatherInfo :=
  { city := "上海", condition := "晴", temperature := some 20, feels := some 19
    humidity := some 50, wind := "10 km/h", air := "实时", icon := "☀️" }

/-- C4 witness: with both paths failing, the prior weather value is kept
and only the status flips to `error`. -/
theorem c4_fetchWeather_fallback_witness :
    fetchWeather envNoData ⟨some priorWeather, .ready⟩ "上海" =
      ({ weather := some priorWeather, status := .error }, false) :=
  (c4_fetchWeather_fallback envNoData ⟨some priorWeather, .ready⟩ "上海"
    (by decide)).2 rfl rfl

theorem fetchWeather_snd (env : WeatherEnv) (ws : WeatherState) (city : String) :
    (fetchWeather env ws city).2 = weatherResolvable env city := by
  unfold fetchWeather weatherResolvable
  by_cases h : normalizeCityName city = ""
  · simp [h]
  · simp only [h, if_false, bne_iff_ne, ne_eq, not_false_eq_true, true_and]
    cases hp : primaryFetch env (normalizeCityName city) <;>
      cases hs : secondaryFetch env (normalizeCityName city) <;>
        simp [hp, hs, h]

theorem locateLoop_all_fail (env : WeatherEnv) (pref : CityPref) :
    ∀ results, (∀ r ∈ results, endpointFails env r = true) →
      ∀ ws, (locateLoop env results ws pref).2 = pref := by
  intro results
  induction results with
  | nil => intro _ ws; rfl
  | cons r rest ih =>
    intro hall ws
    have hr := hall r (List.mem_cons_self r rest)
    have hrest : ∀ x ∈ rest, endpointFails env x = true :=
      fun x hx => hall x (List.mem_cons_of_mem r hx)
    rcases r with - | r
    · simpa only [locateLoop] using ih hrest ws
    · rcases r with - | c
      · simpa only [locateLoop, Option.getD] using ih hrest ws
      · by_cases hc : c = ""
        · subst hc
          simpa only [locateLoop, Option.getD, if_pos rfl] using ih hrest ws
        · have hres : weatherResolvable env (normalizeCityName c) = false := by
            simpa [endpointFails, hc] using hr
          have hsnd := fetchWeather_snd env ws (normalizeCityName c)
          rw [hres] at hsnd
          simp only [locateLoop, Option.getD, hc, if_false, hsnd, Bool.false_eq_true]
          exact ih hrest _

/-- C9: the IP-geolocation loop swallows every per-endpoint failure — a
thrown fetch, a missing city field, an empty city, or a city whose
weather resolution fails (the state threaded on is the one the failed
weather attempt produced) — and tries the next endpoint; the first
endpoint whose city also resolves weather commits that city with
`mode = auto` and stops; and when every endpoint fails the city
preference is left untouched. -/
theorem c9_locateLoop_spec (env : WeatherEnv) (ws : WeatherState) (pref : CityPref) :
    (∀ rest, locateLoop env (none :: rest) ws pref = locateLoop env rest ws pref) ∧
    (∀ rest, locateLoop env (some none :: rest) ws pref = locateLoop env rest ws pref) ∧
    (∀ rest, locateLoop env (some (some "") :: rest) ws pref =
      locateLoop env rest ws pref) ∧
    (∀ rest c, c ≠ "" → weatherResolvable env (normalizeCityName c) = false →
      locateLoop env (some (some c) :: rest) ws pref =
        locateLoop env rest (fetchWeather env ws (normalizeCityName c)).1 pref) ∧
    (∀ rest c, c ≠ "" → weatherResolvable env (normalizeCityName c) = true →
      locateLoop env (some (some c) :: rest) ws pref =
        ((fetchWeather env ws (normalizeCityName c)).1,
          ⟨normalizeCityName c, .auto⟩)) ∧
    (∀ results, (∀ r ∈ results, endpointFails env r = true) →
      ∀ ws', (locateLoop env results ws' pref).2 = pref) := by
  refine ⟨fun rest => rfl, fun rest => rfl, fun rest => rfl, ?_, ?_,
    locateLoop_all_fail env pref⟩
  · intro rest c hc hres
    have hsnd := fetchWeather_snd env ws (normalizeCityName c)
    rw [hres] at hsnd
    simp only [locateLoop, Option.getD, hc, if_false, hsnd, Bool.false_eq_true]
  · intro rest c hc hres
    have hsnd := fetchWeather_snd env ws (normalizeCityName c)
    rw [hres] at hsnd
    simp [locateLoop, Option.getD, hc, hsnd]

/-- C9 witness: a concrete run in which every endpoint fails (a thrown
fetch, a missing city, and a city whose weather resolution fails) leaves
the stored city preference untouched. -/
theorem c9_locateLoop_spec_witness :
    (locateLoop envNoData [some (some "Paris"), none, some none]
      ⟨none, .loading⟩ ⟨"上海", .auto⟩).2 = ⟨"上海", .auto⟩ :=
  (c9_locateLoop_spec envNoData ⟨none, .loading⟩ ⟨"上海", .auto⟩).2.2.2.2.2
    [some (some "Paris"), none, some none] (by decide) ⟨none, .loading⟩

/-- C5: the lenient decoder returns any strict-parse success of the
trimmed input unchanged; when the strict parse fails it is decided by
the bracket slice — no opening brace/bracket means failure, an opening
position with no closing brace/bracket at or after it means failure, and
otherwise the result is exactly the strict parse of the slice from the
earliest opener through the latest closer.  In particular
`garbage{"a":1}trailing` decodes to the object and bracket-free
non-JSON input is rejected. -/
theorem c5_parseJsonLenient_spec (raw : String) :
    (∀ v, parseJsonStrict (jsTrim raw) = some v → parseJsonLenient raw = some v) ∧
    (parseJsonStrict (jsTrim raw) = none →
      firstIdx (jsTrim raw).data '\x7b' = none →
      firstIdx (jsTrim raw).data '[' = none →
      parseJsonLenient raw = none) ∧
    (∀ start, parseJsonStrict (jsTrim raw) = none →
      jsMin2 (firstIdx (jsTrim raw).data '\x7b') (firstIdx (jsTrim raw).data '[') =
        some start →
      jsMax2 (lastIdx ((jsTrim raw).data.drop start) '\x7d')
        (lastIdx ((jsTrim raw).data.drop start) ']') = none →
      parseJsonLenient raw = none) ∧
    (∀ start e, parseJsonStrict (jsTrim raw) = none →
      jsMin2 (firstIdx (jsTrim raw).data '\x7b') (firstIdx (jsTrim raw).data '[') =
        some start →
      jsMax2 (lastIdx ((jsTrim raw).data.drop start) '\x7d')
        (lastIdx ((jsTrim raw).data.drop start) ']') = some e →
      parseJsonLenient raw =
        parseJsonStrict (String.mk (((jsTrim raw).data.drop start).take (e + 1)))) ∧
    parseJsonLenient "garbage\x7b\"a\":1\x7dtrailing" =
      some (.jobj [("a", .jnum "1")]) ∧
    parseJsonLenient "it has no brackets at all" = none := by
  refine ⟨?_, ?_, ?_, ?_, rfl, rfl⟩
  · intro v h
    simp [parseJsonLenient, h]
  · intro h1 h2 h3
    simp [parseJsonLenient, h1, h2, h3, jsMin2]
  · intro s h1 h2 h3
    simp [parseJsonLenient, h1, h2, h3]
  · intro s e h1 h2 h3
    simp [parseJsonLenient, h1, h2, h3]

/-- C5 witness: a strict success passes through, and a bracket-free
non-JSON input is rejected through the no-opening-bracket case. -/
theorem c5_parseJsonLenient_spec_witness :
    parseJsonLenient "[1]" = some (.jarr [.jnum "1"]) ∧
    parseJsonLenient "no json here" = none :=
  ⟨(c5_parseJsonLenient_spec "[1]").1 _ rfl,
   (c5_parseJsonLenient_spec "no json here").2.1 rfl rfl rfl⟩

end Dashboard
